import Mathlib

/-!
Verification of the portainer-py client library: a shallow embedding of the
authenticated request core (`portainer/api/client.py`), the container verb
layer (`portainer/api/container.py`), the decorators
(`portainer/utils/decorators.py`), the filter encoder
(`portainer/utils/utils.py`) and the collection layer
(`portainer/models/containers.py`), together with theorems about the
behaviour of these functions.

Conventions of the embedding:
* HTTP bodies are modelled as `String` (the code always decodes utf-8).
* Timestamps are modelled as `Nat` minutes.
* Python `dict`s are modelled as association lists in insertion order
  (Python dicts preserve insertion order and have pairwise-distinct keys).
* JSON decoding of a successful response body is kept abstract: the request
  core is parameterised by the decoder `decode : String → α` that
  `response.json()` applies to the body.
-/

namespace Portainer

/-! ## Request core (`portainer/api/client.py`, `APIClient._request`) -/

/-- A completed HTTP response as seen by `_request` after the transport call:
status code, the `Content-Type` header (`""` when absent, as
`response.headers.get("Content-Type", "")`) and the body decoded as utf-8
text. -/
structure HttpResponse where
  status : Nat
  contentType : String
  body : String
deriving DecidableEq, Repr

/-- The uniform outcome of a completed round trip, as produced by the tail of
`APIClient._request`: `ActionResponse(success=False, message=...)` for
4xx/5xx, `ActionResponse(success=True)` for 204, the decoded JSON body when
the content type says JSON, and otherwise the raw text body. -/
inductive Outcome (α : Type) where
  | failure (message : String)
  | successEmpty
  | successJson (payload : α)
  | successText (body : String)
deriving DecidableEq, Repr

/-- Python's substring test `needle in hay`. -/
def strContainsSub (hay needle : String) : Bool :=
  (List.range (hay.data.length + 1)).any fun i =>
    needle.data.isPrefixOf (hay.data.drop i)

/-- The response-classification tail of `APIClient._request`
(client.py lines 122-138): first `(status // 100) in [4, 5]` returns a
failure carrying the raw body as text, then `status == 204` returns the
empty success, then a `Content-Type` containing `application/json` returns
the JSON-decoded body, and otherwise the raw text body is returned. -/
def classifyResponse {α : Type} (decode : String → α) (r : HttpResponse) :
    Outcome α :=
  if r.status / 100 = 4 ∨ r.status / 100 = 5 then
    Outcome.failure r.body
  else if r.status = 204 then
    Outcome.successEmpty
  else if strContainsSub r.contentType "application/json" then
    Outcome.successJson (decode r.body)
  else
    Outcome.successText r.body

/-- What the transport layer reports back to `_request`: the round trip
completed with a response, timed out (`asyncio.TimeoutError`), or failed with
some other connection-level error (`aiohttp.ClientError`). -/
inductive Transport where
  | ok (response : HttpResponse)
  | timedOut
  | clientError
deriving DecidableEq, Repr

/-- The exception raised by `_request` on a transport failure: both raise
sites use Python's `RuntimeError`, distinguished by their message. -/
inductive PyRuntimeError where
  | runtimeError (message : String)
deriving DecidableEq, Repr

/-- The dispatch-and-classify part of `APIClient._request`
(client.py lines 104-138): a timeout raises
`RuntimeError("Timeout occurred while connecting to Docker")`, any other
connection-level failure raises
`RuntimeError("Error occurred while communicating with Docker")`, and a
completed round trip is classified into an `Outcome`. -/
def requestDispatch {α : Type} (decode : String → α) (t : Transport) :
    Except PyRuntimeError (Outcome α) :=
  match t with
  | Transport.ok r => Except.ok (classifyResponse decode r)
  | Transport.timedOut =>
      Except.error (PyRuntimeError.runtimeError
        "Timeout occurred while connecting to Docker")
  | Transport.clientError =>
      Except.error (PyRuntimeError.runtimeError
        "Error occurred while communicating with Docker")

set_option linter.unusedVariables false in
/-- The path construction of `APIClient._request` (client.py line 88):
`path = f"/api{path}" if abs_path else f"/api/endpoints/1/docker{path}"`.
The endpoint id in the non-absolute branch is the literal `1`; the client's
`env_id` field (the `envId` argument here) is in scope but not used. -/
def effectivePath (envId : Int) (absPath : Bool) (path : String) : String :=
  if absPath then "/api" ++ path else "/api/endpoints/1/docker" ++ path

/-- The path construction as the specification states it: the non-absolute
branch is scoped by the client's configured `env_id`. Stated for comparison
with `effectivePath`, the embedding of the code. -/
def effectivePathSpec (envId : Int) (absPath : Bool) (path : String) :
    String :=
  if absPath then "/api" ++ path
  else "/api/endpoints/" ++ toString envId ++ "/docker" ++ path

/-- A query parameter value; `none` models Python `None`. -/
inductive QueryVal where
  | str (s : String)
  | int (n : Int)
deriving DecidableEq, Repr

/-- The query filter of `APIClient._request` (client.py line 87):
`query = \x7bkey: value for key, value in query.items() if value is not None\x7d`. -/
def dropNoneQuery (query : List (String × Option QueryVal)) :
    List (String × QueryVal) :=
  query.filterMap fun kv =>
    match kv.2 with
    | none => none
    | some v => some (kv.1, v)

/-! ## Token manager (`APIClient._refresh_token` and the `auth` decorator) -/

/-- The token state held by the client: `self._token` and
`self._token_expiry`, both `None` after `__init__`. Expiry timestamps are
minutes. -/
structure TokenState where
  token : Option String
  expiry : Option Nat
deriving DecidableEq, Repr

/-- The state right after `APIClient.__init__`: `self._token = None`,
`self._token_expiry = None`. -/
def initialTokenState : TokenState := { token := none, expiry := none }

/-- The credential-exchange request issued by `_refresh_token`
(client.py lines 41-52): `POST` to `/auth` with `abs_path=True` and a JSON
body holding the username and the password. -/
structure AuthRequest where
  path : String
  absPath : Bool
  method : String
  username : String
  password : String
deriving DecidableEq, Repr

/-- The descriptor `_refresh_token` builds for the credential exchange. -/
def authRequestFor (username password : String) : AuthRequest :=
  { path := "/auth", absPath := true, method := "POST",
    username := username, password := password }

/-- The fixed token lifetime `timedelta(hours=7, minutes=59)` of
`_refresh_token`, in minutes. -/
def tokenLifetime : Nat := 7 * 60 + 59

/-- The `APIClient._refresh_token` method (client.py lines 39-55): when
`self._token is None or datetime.now() >= self._token_expiry`, POST the
credentials to `/auth`, store the returned `jwt` as the token and set the
expiry to `datetime.now() + timedelta(hours=7, minutes=59)`; otherwise do
nothing. `jwtOf` abstracts the server's `res["jwt"]` answer to the exchange;
`nowCheck` and `nowSet` are the two `datetime.now()` readings (the
comparison and the expiry assignment). Returns the new state and the list
of credential exchanges performed. In the code `self._token_expiry` is
assigned exactly when `self._token` is (both start as `None`), so the
`getD 0` default of the expiry comparison is never consulted on a reachable
state. -/
def refresh_token (username password : String) (jwtOf : AuthRequest → String)
    (nowCheck nowSet : Nat) (st : TokenState) :
    TokenState × List AuthRequest :=
  if st.token = none ∨ st.expiry.getD 0 ≤ nowCheck then
    let req := authRequestFor username password
    ({ token := some (jwtOf req), expiry := some (nowSet + tokenLifetime) },
     [req])
  else
    (st, [])

/-- Observable events of one authenticated call: credential exchanges and
the wrapped call itself, carrying the token it was handed. -/
inductive AuthEvent where
  | exchange (req : AuthRequest)
  | call (token : Option String)
deriving DecidableEq, Repr

/-- The `auth` decorator (decorators.py lines 3-7): `await
self._refresh_token()` first, then the wrapped coroutine is called with
`token=self._token`. Returns the new token state and the ordered list of
events. -/
def auth (username password : String) (jwtOf : AuthRequest → String)
    (nowCheck nowSet : Nat) (st : TokenState) :
    TokenState × List AuthEvent :=
  let res := refresh_token username password jwtOf nowCheck nowSet st
  (res.1, res.2.map AuthEvent.exchange ++ [AuthEvent.call res.1.token])

/-! ## Filter encoder (`portainer/utils/utils.py`, `convert_filters`) -/

/-- A Python scalar that can appear in a filter value. -/
inductive PyScalar where
  | bool (b : Bool)
  | int (n : Int)
  | str (s : String)
deriving DecidableEq, Repr

/-- Python's `str()` on a scalar: `str(True) = "True"`,
`str(False) = "False"`, decimal rendering for ints, identity on strings. -/
def pyStr : PyScalar → String
  | PyScalar.bool true => "True"
  | PyScalar.bool false => "False"
  | PyScalar.int n => toString n
  | PyScalar.str s => s

/-- A filter value: a scalar or a list of scalars. -/
inductive FilterVal where
  | scalar (v : PyScalar)
  | list (vs : List PyScalar)
deriving DecidableEq, Repr

/-- The per-value part of `convert_filters` (utils.py lines 40-47): first
`if isinstance(v, bool): v = 'true' if v else 'false'` (this rewrites only a
scalar boolean into a lowercase string), then `if not isinstance(v, list):
v = [v,]`, then each item is passed through `str(item)` unless it already is
a string. -/
def convert_filters_value (v : FilterVal) : List String :=
  let v := match v with
    | FilterVal.scalar (PyScalar.bool b) =>
        FilterVal.scalar (PyScalar.str (if b then "true" else "false"))
    | w => w
  let items := match v with
    | FilterVal.scalar s => [s]
    | FilterVal.list vs => vs
  items.map pyStr

/-- The `result` dict of `convert_filters` before `json.dumps`: each key is
mapped to its list of strings, in insertion order. -/
def convert_filters_lists (filters : List (String × FilterVal)) :
    List (String × List String) :=
  filters.map fun kv => (kv.1, convert_filters_value kv.2)

/-- One hexadecimal digit, lowercase, as `json.dumps` emits them. -/
def hexDigitChar (n : Nat) : Char :=
  if n < 10 then Char.ofNat (48 + n) else Char.ofNat (87 + n)

/-- Four hexadecimal digits, as in a `\uXXXX` escape. -/
def hex4 (n : Nat) : String :=
  String.mk [hexDigitChar (n / 4096 % 16), hexDigitChar (n / 256 % 16),
    hexDigitChar (n / 16 % 16), hexDigitChar (n % 16)]

/-- Escaping of one character by Python's `json.dumps` with its default
`ensure_ascii=True`: quote and backslash get a backslash escape, the common
control characters get their short escapes, every other character outside
`0x20`-`0x7e` becomes `\uXXXX` (a surrogate pair above `0xffff`), and the
rest stand for themselves. -/
def jsonEscapeChar (c : Char) : String :=
  if c = '"' then "\\\""
  else if c = '\\' then "\\\\"
  else if c = '\n' then "\\n"
  else if c = '\t' then "\\t"
  else if c = '\r' then "\\r"
  else if c = '\x08' then "\\b"
  else if c = '\x0c' then "\\f"
  else if c.toNat < 32 then "\\u" ++ hex4 c.toNat
  else if c.toNat < 127 then String.mk [c]
  else if c.toNat < 65536 then "\\u" ++ hex4 c.toNat
  else
    "\\u" ++ hex4 (55296 + (c.toNat - 65536) / 1024) ++
    "\\u" ++ hex4 (56320 + (c.toNat - 65536) % 1024)

/-- A JSON string literal as `json.dumps` renders it. -/
def jsonString (s : String) : String :=
  "\"" ++ String.join (s.data.map jsonEscapeChar) ++ "\""

/-- A JSON array of strings as `json.dumps` renders it (default separator
is a comma followed by a space). -/
def jsonStringArray (xs : List String) : String :=
  "[" ++ String.intercalate ", " (xs.map jsonString) ++ "]"

/-- The rendering `json.dumps` gives an object whose values are lists of
strings (default separators; keys in insertion order). -/
def jsonDumpsStrListObj (kvs : List (String × List String)) : String :=
  "\x7b" ++
    String.intercalate ", "
      (kvs.map fun kv => jsonString kv.1 ++ ": " ++ jsonStringArray kv.2) ++
  "\x7d"

/-- The `convert_filters` function (utils.py lines 37-48): build the
`result` dict and serialize it with `json.dumps`. -/
def convert_filters (filters : List (String × FilterVal)) : String :=
  jsonDumpsStrListObj (convert_filters_lists filters)

/-! ## Resource-id checking (`portainer/utils/decorators.py`,
`check_resource`) and the container verbs (`portainer/api/container.py`) -/

/-- A value handed to a resource-targeting verb as the container argument:
a string id, or a dict whose `Id` and `ID` entries (when present) are given,
with a flag recording whether the dict has any further keys (which makes it
truthy even without `Id`/`ID`). -/
inductive ResourceArg where
  | str (s : String)
  | dict (idKey : Option String) (idKeyCaps : Option String)
      (hasOtherKeys : Bool)
deriving DecidableEq, Repr

/-- Python truthiness of a resource argument: a string is truthy when
non-empty, a dict when non-empty. -/
def ResourceArg.truthy : ResourceArg → Bool
  | ResourceArg.str s => !(s = "")
  | ResourceArg.dict i u o => i.isSome || u.isSome || o

/-- The exception escaping the guard of `check_resource`. The raise site
(decorators.py line 17) reads `raise errors.NullResource('Resource ID was
not provided')`, but decorators.py imports only `from . import utils`, so
the name `errors` is unbound there and executing the raise statement itself
raises `NameError("name 'errors' is not defined")`. -/
inductive CheckResourceErr where
  | nameError (message : String)
deriving DecidableEq, Repr

/-- The error value actually produced at the guard's raise site. -/
def nullResourceRaise : CheckResourceErr :=
  CheckResourceErr.nameError "name 'errors' is not defined"

/-- The guard of the `check_resource('container')` decorator
(decorators.py lines 9-22): take the positional `resource_id` if given,
else a truthy `container` keyword argument; a dict is replaced by
`resource_id.get('Id', resource_id.get('ID'))`; a missing or falsy result
raises before the wrapped method (and hence any network request) runs. -/
def check_resource (positional kwarg : Option ResourceArg) :
    Except CheckResourceErr String :=
  let rid : Option ResourceArg :=
    match positional with
    | some a => some a
    | none =>
      match kwarg with
      | some k => if k.truthy then some k else none
      | none => none
  let rid : Option String :=
    match rid with
    | some (ResourceArg.str s) => some s
    | some (ResourceArg.dict i u _) => i <|> u
    | none => none
  match rid with
  | some s => if s = "" then Except.error nullResourceRaise else Except.ok s
  | none => Except.error nullResourceRaise

/-- A request descriptor as a container verb hands it to `_get`/`_post`:
HTTP method, endpoint-scoped path, query parameters. -/
structure RequestDesc where
  method : String
  path : String
  query : List (String × QueryVal)
deriving DecidableEq, Repr

/-- A `signal` argument to `kill`: a string, or a non-string (integral)
value. -/
inductive SignalArg where
  | str (s : String)
  | num (n : Int)
deriving DecidableEq, Repr

/-- Python's `int()` applied to a non-string signal (container.py line
109). -/
def SignalArg.toInt : SignalArg → Option Int
  | SignalArg.str _ => none
  | SignalArg.num n => some n

/-- The `params` dict built by `kill` (container.py lines 106-110): empty
when no signal is given; otherwise `signal = int(signal)` unless the signal
already is a string, and the (possibly coerced) value is stored under
`'signal'`. -/
def kill_params (signal : Option SignalArg) : List (String × QueryVal) :=
  match signal with
  | none => []
  | some sig =>
    let v : QueryVal :=
      match sig with
      | SignalArg.str s => QueryVal.str s
      | SignalArg.num n => QueryVal.int n
    [("signal", v)]

/-- The `inspect_container` verb (container.py lines 75-91):
`GET /containers/{container}/json`, guarded by `check_resource`. -/
def inspect_container (positional kwarg : Option ResourceArg) :
    Except CheckResourceErr RequestDesc :=
  (check_resource positional kwarg).map fun c =>
    { method := "GET", path := "/containers/" ++ c ++ "/json", query := [] }

/-- The `kill` verb (container.py lines 93-112):
`POST /containers/{container}/kill` with the `signal` parameter rules of
`kill_params`. -/
def kill (positional kwarg : Option ResourceArg)
    (signal : Option SignalArg) : Except CheckResourceErr RequestDesc :=
  (check_resource positional kwarg).map fun c =>
    { method := "POST", path := "/containers/" ++ c ++ "/kill",
      query := kill_params signal }

/-- The `pause` verb (container.py lines 114-126). -/
def pause (positional kwarg : Option ResourceArg) :
    Except CheckResourceErr RequestDesc :=
  (check_resource positional kwarg).map fun c =>
    { method := "POST", path := "/containers/" ++ c ++ "/pause",
      query := [] }

/-- The `restart` verb (container.py lines 128-145): `params = ⟨t:
timeout⟩`. -/
def restart (positional kwarg : Option ResourceArg) (timeout : Int) :
    Except CheckResourceErr RequestDesc :=
  (check_resource positional kwarg).map fun c =>
    { method := "POST", path := "/containers/" ++ c ++ "/restart",
      query := [("t", QueryVal.int timeout)] }

/-- The `start` verb (container.py lines 147-182), called without the
deprecated extra arguments. -/
def start (positional kwarg : Option ResourceArg) :
    Except CheckResourceErr RequestDesc :=
  (check_resource positional kwarg).map fun c =>
    { method := "POST", path := "/containers/" ++ c ++ "/start",
      query := [] }

/-- The `stats` verb (container.py lines 184-201): a single snapshot with
`query=⟨stream: "false"⟩`. -/
def stats (positional kwarg : Option ResourceArg) :
    Except CheckResourceErr RequestDesc :=
  (check_resource positional kwarg).map fun c =>
    { method := "GET", path := "/containers/" ++ c ++ "/stats",
      query := [("stream", QueryVal.str "false")] }

/-- The `stop` verb (container.py lines 203-221): `params = ⟨t:
timeout⟩`. -/
def stop (positional kwarg : Option ResourceArg) (timeout : Int) :
    Except CheckResourceErr RequestDesc :=
  (check_resource positional kwarg).map fun c =>
    { method := "POST", path := "/containers/" ++ c ++ "/stop",
      query := [("t", QueryVal.int timeout)] }

/-- The `top` verb (container.py lines 223-243): `ps_args` is set only when
provided. -/
def top (positional kwarg : Option ResourceArg) (psArgs : Option String) :
    Except CheckResourceErr RequestDesc :=
  (check_resource positional kwarg).map fun c =>
    { method := "GET", path := "/containers/" ++ c ++ "/top",
      query :=
        match psArgs with
        | none => []
        | some s => [("ps_args", QueryVal.str s)] }

/-! ## Collection layer (`portainer/models/containers.py`,
`ContainerCollection.list`) -/

/-- One per-id inspect outcome as `ContainerCollection.get` observes it.
Modelled from the spec: `portainer/errors.py` and
`portainer/models/resource.py` (`prepare_model`, the `NotFound` raise that
`except NotFound` in `ContainerCollection.list` catches) are not under
src/; per the spec (§7), looking up a resource id that no longer exists
surfaces as a not-found condition derived from the server's rejection,
while any other failure propagates. `found` carries the fully populated
entity. -/
inductive InspectOutcome where
  | found (attrs : String)
  | missing
  | failed
deriving DecidableEq, Repr

/-- The attribute payload of a successful inspect, `none` otherwise. -/
def foundAttrs : InspectOutcome → Option String
  | InspectOutcome.found a => some a
  | InspectOutcome.missing => none
  | InspectOutcome.failed => none

/-- The exception escaping `ContainerCollection.list`. -/
inductive ListErr where
  | notFound
  | other
deriving DecidableEq, Repr

/-- The non-sparse loop of `ContainerCollection.list` (containers.py lines
252-261): one `get` (hence one inspect request) per summary entry, in
order; a `NotFound` is swallowed when `ignore_removed` is set and re-raised
otherwise; any other exception propagates. Returns the number of inspect
requests issued and the outcome. -/
def containerListLoop (inspect : String → InspectOutcome)
    (ignoreRemoved : Bool) : List String → Nat × Except ListErr (List String)
  | [] => (0, Except.ok [])
  | id :: rest =>
    match inspect id with
    | InspectOutcome.found attrs =>
      let res := containerListLoop inspect ignoreRemoved rest
      (res.1 + 1, res.2.map fun cs => attrs :: cs)
    | InspectOutcome.missing =>
      if ignoreRemoved then
        let res := containerListLoop inspect ignoreRemoved rest
        (res.1 + 1, res.2)
      else
        (1, Except.error ListErr.notFound)
    | InspectOutcome.failed => (1, Except.error ListErr.other)

/-! ## Session lifecycle (`APIClient.__init__` and `APIClient.close`) -/

/-- An HTTP session: either one supplied by the caller via the `session`
parameter, or the fresh `aiohttp.ClientSession()` the constructor makes. -/
inductive Session where
  | supplied (id : Nat)
  | fresh
deriving DecidableEq, Repr

/-- The session-related fields of the client: `self._session` and
`self._close_session`. -/
structure ClientSessionState where
  session : Option Session
  closeSession : Bool
deriving DecidableEq, Repr

set_option linter.unusedVariables false in
/-- The session handling of `APIClient.__init__` (client.py lines 21-37):
`self._session = None; self._close_session = False`, then `if self._session
is None: self._session = aiohttp.ClientSession(); self._close_session =
True`. The `session` parameter is accepted but never assigned to
`self._session`. -/
def initSession (sessionArg : Option Session) : ClientSessionState :=
  let s : Option Session := none
  let closeSession : Bool := false
  match s with
  | none => { session := some Session.fresh, closeSession := true }
  | some _ => { session := s, closeSession := closeSession }

/-- The `APIClient.close` method (client.py lines 144-147): `if
self._session and self._close_session: await self._session.close()`.
Returns the session that gets closed, if any. -/
def closeClient (st : ClientSessionState) : Option Session :=
  match st.session with
  | some s => if st.closeSession then some s else none
  | none => none

/-! ## Theorems -/

/-- C1: the claim says the non-absolute effective path is
`/api/endpoints/{endpoint_id}/docker` + path with `endpoint_id` the
client's configured `env_id`; the code (client.py line 88) hardcodes the
literal `1` in the f-string and never reads `self.env_id`, so a client
configured with `env_id = 2` still sends every non-absolute request to
endpoint 1. The absolute branch (`/api` + path) does match the claim. -/
theorem C1_env_id_ignored :
    effectivePath 2 false "/containers/json" =
      "/api/endpoints/1/docker/containers/json" ∧
    effectivePathSpec 2 false "/containers/json" =
      "/api/endpoints/2/docker/containers/json" ∧
    effectivePath 2 false "/containers/json" ≠
      effectivePathSpec 2 false "/containers/json" ∧
    effectivePath 2 true "/auth" = "/api/auth" ∧
    effectivePath 1 false "/containers/json" =
      effectivePathSpec 1 false "/containers/json" := by
  refine ⟨rfl, by decide, by decide, rfl, by decide⟩

/-- C2: a completed round trip is classified in order: a status in
[400,599] yields a failure carrying the raw body as text, and the JSON
decoder is never consulted for it (the classification is the same for any
two decoders); otherwise 204 yields the empty success; otherwise a
`Content-Type` containing `application/json` yields the decoded JSON body;
otherwise the raw text body is returned. -/
theorem C2_response_classification {α : Type} (decode decode2 : String → α)
    (r : HttpResponse) :
    (400 ≤ r.status ∧ r.status ≤ 599 →
      classifyResponse decode r = Outcome.failure r.body ∧
      classifyResponse decode r = classifyResponse decode2 r) ∧
    (r.status = 204 →
      classifyResponse decode r = Outcome.successEmpty) ∧
    (¬(400 ≤ r.status ∧ r.status ≤ 599) → r.status ≠ 204 →
      strContainsSub r.contentType "application/json" = true →
      classifyResponse decode r = Outcome.successJson (decode r.body)) ∧
    (¬(400 ≤ r.status ∧ r.status ≤ 599) → r.status ≠ 204 →
      strContainsSub r.contentType "application/json" = false →
      classifyResponse decode r = Outcome.successText r.body) := by
  refine ⟨fun h => ?_, fun h => ?_, fun h1 h2 h3 => ?_, fun h1 h2 h3 => ?_⟩
  · have hc : r.status / 100 = 4 ∨ r.status / 100 = 5 := by omega
    exact ⟨by unfold classifyResponse; rw [if_pos hc],
      by unfold classifyResponse; rw [if_pos hc, if_pos hc]⟩
  · have hc : ¬(r.status / 100 = 4 ∨ r.status / 100 = 5) := by omega
    unfold classifyResponse
    rw [if_neg hc, if_pos h]
  · have hc : ¬(r.status / 100 = 4 ∨ r.status / 100 = 5) := by omega
    unfold classifyResponse
    rw [if_neg hc, if_neg h2]
    simp [h3]
  · have hc : ¬(r.status / 100 = 4 ∨ r.status / 100 = 5) := by omega
    unfold classifyResponse
    rw [if_neg hc, if_neg h2]
    simp [h3]

/-- C2 witness: the spec's three examples — status 204 yields the empty
success; status 404 with body `no such container` yields the failure
carrying that body; status 200 with JSON content type yields the decoded
body. -/
theorem C2_response_classification_witness :
    classifyResponse (fun s => s)
        { status := 204, contentType := "", body := "" } =
      Outcome.successEmpty ∧
    classifyResponse (fun s => s)
        { status := 404, contentType := "application/json",
          body := "no such container" } =
      Outcome.failure "no such container" ∧
    classifyResponse (fun s => s ++ "!")
        { status := 200, contentType := "application/json",
          body := "\x7b\"Id\":\"abc\"\x7d" } =
      Outcome.successJson ("\x7b\"Id\":\"abc\"\x7d" ++ "!") := by
  refine ⟨(C2_response_classification (fun s => s) (fun s => s) _).2.1 rfl,
    ((C2_response_classification (fun s => s) (fun s => s) _).1
      (by decide)).1,
    (C2_response_classification (fun s => s ++ "!") (fun s => s ++ "!")
        _).2.2.1 (by decide) (by decide) (by decide)⟩

/-- C4: a timeout of the round trip raises
`RuntimeError("Timeout occurred while connecting to Docker")`, any other
connection-level failure raises the distinct
`RuntimeError("Error occurred while communicating with Docker")`, and in
both cases `_request` raises instead of returning an outcome value. -/
theorem C4_transport_errors {α : Type} (decode : String → α) :
    requestDispatch decode Transport.timedOut =
      Except.error (PyRuntimeError.runtimeError
        "Timeout occurred while connecting to Docker") ∧
    requestDispatch decode Transport.clientError =
      Except.error (PyRuntimeError.runtimeError
        "Error occurred while communicating with Docker") ∧
    PyRuntimeError.runtimeError
        "Timeout occurred while connecting to Docker" ≠
      PyRuntimeError.runtimeError
        "Error occurred while communicating with Docker" ∧
    ∀ o : Outcome α,
      requestDispatch decode Transport.timedOut ≠ Except.ok o ∧
      requestDispatch decode Transport.clientError ≠ Except.ok o := by
  refine ⟨rfl, rfl, by decide, fun o => ⟨?_, ?_⟩⟩ <;> simp [requestDispatch]

/-- C7: every resource-targeting verb invoked without a resolvable
identifier — no argument at all, a dict lacking both `Id` and `ID`, or an
empty id string — fails in the `check_resource` guard before any request
descriptor is built; but the exception escaping the guard is
`NameError("name 'errors' is not defined")` (decorators.py never imports
`errors`), not the `NullResource` error the raise statement names. -/
theorem C7_guard_raises_before_network :
    inspect_container none none = Except.error nullResourceRaise ∧
    kill none none none = Except.error nullResourceRaise ∧
    pause none none = Except.error nullResourceRaise ∧
    restart none none 10 = Except.error nullResourceRaise ∧
    start none none = Except.error nullResourceRaise ∧
    stats none none = Except.error nullResourceRaise ∧
    stop none none 10 = Except.error nullResourceRaise ∧
    top none none none = Except.error nullResourceRaise ∧
    inspect_container (some (ResourceArg.dict none none true)) none =
      Except.error nullResourceRaise ∧
    inspect_container (some (ResourceArg.str "")) none =
      Except.error nullResourceRaise ∧
    inspect_container none (some (ResourceArg.dict none none true)) =
      Except.error nullResourceRaise ∧
    nullResourceRaise =
      CheckResourceErr.nameError "name 'errors' is not defined" := by
  exact ⟨rfl, rfl, rfl, rfl, rfl, rfl, rfl, rfl, rfl, rfl, rfl, rfl⟩

/-- C8: `kill` omits the `signal` query parameter when no signal is given,
passes a string signal through unmodified, and stores a non-string signal
as its integer value. -/
theorem C8_kill_signal (c s : String) (n : Int) (hc : c ≠ "") :
    kill (some (ResourceArg.str c)) none none =
      Except.ok
        { method := "POST", path := "/containers/" ++ c ++ "/kill",
          query := [] } ∧
    kill (some (ResourceArg.str c)) none (some (SignalArg.str s)) =
      Except.ok
        { method := "POST", path := "/containers/" ++ c ++ "/kill",
          query := [("signal", QueryVal.str s)] } ∧
    kill (some (ResourceArg.str c)) none (some (SignalArg.num n)) =
      Except.ok
        { method := "POST", path := "/containers/" ++ c ++ "/kill",
          query := [("signal", QueryVal.int n)] } := by
  refine ⟨?_, ?_, ?_⟩ <;>
    simp [kill, check_resource, kill_params, hc, Except.map]

/-- C8 witness: the spec's two examples, `signal=9` and
`signal="SIGTERM"`, on container id `abc`. -/
theorem C8_kill_signal_witness :
    kill (some (ResourceArg.str "abc")) none (some (SignalArg.num 9)) =
      Except.ok
        { method := "POST", path := "/containers/" ++ "abc" ++ "/kill",
          query := [("signal", QueryVal.int 9)] } ∧
    kill (some (ResourceArg.str "abc")) none
        (some (SignalArg.str "SIGTERM")) =
      Except.ok
        { method := "POST", path := "/containers/" ++ "abc" ++ "/kill",
          query := [("signal", QueryVal.str "SIGTERM")] } := by
  have h := C8_kill_signal "abc" "SIGTERM" 9 (by decide)
  exact ⟨h.2.2, h.2.1⟩

/-- C3: an authenticated call performs exactly one credential exchange
(a `POST` to `/auth` with the username and the password) before the
wrapped call when the client holds no token or the held expiry is at or
before the current time, storing the returned token and the expiry
`now + 7h59m` together; when the held expiry is in the future, no exchange
happens and the state is unchanged. -/
theorem C3_token_refresh (username password : String)
    (jwtOf : AuthRequest → String) (nowCheck nowSet : Nat)
    (st : TokenState) :
    (st.token = none ∨ (∃ e, st.expiry = some e ∧ e ≤ nowCheck) →
      (auth username password jwtOf nowCheck nowSet st).2 =
        [AuthEvent.exchange (authRequestFor username password),
         AuthEvent.call
           (some (jwtOf (authRequestFor username password)))] ∧
      (auth username password jwtOf nowCheck nowSet st).1.token =
        some (jwtOf (authRequestFor username password)) ∧
      (auth username password jwtOf nowCheck nowSet st).1.expiry =
        some (nowSet + tokenLifetime)) ∧
    (∀ t e, st.token = some t → st.expiry = some e → nowCheck < e →
      (auth username password jwtOf nowCheck nowSet st).2 =
        [AuthEvent.call (some t)] ∧
      (auth username password jwtOf nowCheck nowSet st).1 = st) := by
  constructor
  · intro h
    have hcond : st.token = none ∨ st.expiry.getD 0 ≤ nowCheck := by
      rcases h with h | ⟨e, he, hle⟩
      · exact Or.inl h
      · right
        rw [he]
        exact hle
    unfold auth refresh_token
    rw [if_pos hcond]
    exact ⟨rfl, rfl, rfl⟩
  · intro t e ht he hlt
    have hcond : ¬(st.token = none ∨ st.expiry.getD 0 ≤ nowCheck) := by
      rw [ht, he]
      simp
      omega
    unfold auth refresh_token
    rw [if_neg hcond]
    exact ⟨by simp [ht], rfl⟩

/-- C3 witness: a fresh client (no token) exchanging credentials at time 0
and timestamping the expiry from the later reading 5; and a client holding
a token with expiry 10 at time 3, which performs no exchange. -/
theorem C3_token_refresh_witness :
    (auth "u" "p" (fun _ => "tok") 0 5 initialTokenState).2 =
      [AuthEvent.exchange (authRequestFor "u" "p"),
       AuthEvent.call (some "tok")] ∧
    (auth "u" "p" (fun _ => "tok") 0 5 initialTokenState).1.expiry =
      some (5 + tokenLifetime) ∧
    (auth "u" "p" (fun _ => "tok") 3 3
        { token := some "tok", expiry := some 10 }).2 =
      [AuthEvent.call (some "tok")] := by
  have h1 := (C3_token_refresh "u" "p" (fun _ => "tok") 0 5
      initialTokenState).1 (Or.inl rfl)
  have h2 := (C3_token_refresh "u" "p" (fun _ => "tok") 3 3
      { token := some "tok", expiry := some 10 }).2 "tok" 10 rfl rfl
      (by omega)
  exact ⟨h1.1, h1.2.2, h2.1⟩

/-- The keys surviving the `None` filter are a sublist of the original
keys. -/
theorem dropNone_keys_sublist (q : List (String × Option QueryVal)) :
    ((dropNoneQuery q).map Prod.fst).Sublist (q.map Prod.fst) := by
  induction q with
  | nil => simp [dropNoneQuery]
  | cons kv rest ih =>
    obtain ⟨k, v⟩ := kv
    cases v with
    | none =>
      simpa [dropNoneQuery, List.filterMap_cons] using ih.cons k
    | some w =>
      simpa [dropNoneQuery, List.filterMap_cons] using ih.cons₂ k

/-- Membership in the filtered query. -/
theorem mem_dropNone_iff (q : List (String × Option QueryVal))
    (k : String) (v : QueryVal) :
    (k, v) ∈ dropNoneQuery q ↔ (k, some v) ∈ q := by
  simp only [dropNoneQuery, List.mem_filterMap]
  constructor
  · rintro ⟨⟨k', v'⟩, hmem, heq⟩
    cases v' with
    | none => simp at heq
    | some w =>
      simp only [Option.some.injEq, Prod.mk.injEq] at heq
      obtain ⟨hk, hv⟩ := heq
      rw [hk, hv] at hmem
      exact hmem
  · intro h
    exact ⟨(k, some v), h, rfl⟩

/-- When the query keys are pairwise distinct (a Python dict invariant),
one key determines its value. -/
theorem nodup_key_unique (q : List (String × Option QueryVal))
    (k : String) (a b : Option QueryVal)
    (hnd : (q.map Prod.fst).Nodup)
    (ha : (k, a) ∈ q) (hb : (k, b) ∈ q) : a = b := by
  induction q with
  | nil => simp at ha
  | cons kv rest ih =>
    obtain ⟨k0, v0⟩ := kv
    simp only [List.map_cons, List.nodup_cons] at hnd
    obtain ⟨hknot, hnd'⟩ := hnd
    rcases List.mem_cons.mp ha with ha1 | ha2 <;>
      rcases List.mem_cons.mp hb with hb1 | hb2
    · rw [Prod.mk.injEq] at ha1 hb1
      rw [ha1.2, hb1.2]
    · rw [Prod.mk.injEq] at ha1
      exact absurd (ha1.1 ▸ List.mem_map_of_mem Prod.fst hb2) hknot
    · rw [Prod.mk.injEq] at hb1
      exact absurd (hb1.1 ▸ List.mem_map_of_mem Prod.fst ha2) hknot
    · exact ih hnd' ha2 hb2

/-- C9: in the query mapping handed to `_request`, every key with a `None`
value is absent from the filtered query, and every key with a non-`None`
value appears in it exactly once (query mappings are Python dicts, so their
keys are pairwise distinct). -/
theorem C9_query_none_dropped (q : List (String × Option QueryVal))
    (k : String) (hnd : (q.map Prod.fst).Nodup) :
    ((k, (none : Option QueryVal)) ∈ q →
      k ∉ (dropNoneQuery q).map Prod.fst) ∧
    ∀ v : QueryVal, (k, some v) ∈ q →
      ((dropNoneQuery q).map Prod.fst).count k = 1 := by
  constructor
  · intro hmem hk
    obtain ⟨⟨k', v'⟩, hin, hfst⟩ := List.mem_map.mp hk
    have hq : (k, some v') ∈ q := by
      have := (mem_dropNone_iff q k' v').mp hin
      rwa [show k' = k from hfst] at this
    exact Option.noConfusion (nodup_key_unique q k none (some v') hnd hmem hq)
  · intro v hv
    have hmem : k ∈ (dropNoneQuery q).map Prod.fst :=
      List.mem_map.mpr ⟨(k, v), (mem_dropNone_iff q k v).mpr hv, rfl⟩
    have hnd' : ((dropNoneQuery q).map Prod.fst).Nodup :=
      hnd.sublist (dropNone_keys_sublist q)
    exact List.count_eq_one_of_mem hnd' hmem

/-- C9 witness: the query `since=None, all=1` loses the key `since` and
keeps the key `all` exactly once. -/
theorem C9_query_none_dropped_witness :
    "since" ∉
      (dropNoneQuery
        [("all", some (QueryVal.int 1)), ("since", none)]).map Prod.fst ∧
    ((dropNoneQuery
        [("all", some (QueryVal.int 1)), ("since", none)]).map
          Prod.fst).count "all" = 1 := by
  refine ⟨(C9_query_none_dropped
      [("all", some (QueryVal.int 1)), ("since", none)] "since"
      (by decide)).1 (by decide),
    (C9_query_none_dropped
      [("all", some (QueryVal.int 1)), ("since", none)] "all"
      (by decide)).2 (QueryVal.int 1) (by decide)⟩

/-- C5 counterexample: the claim says a boolean renders as lowercase
`true`/`false` also when it appears inside a list value, but
`convert_filters` only lowercases a scalar boolean (the `isinstance(v,
bool)` test runs before list wrapping); a boolean inside a list reaches
`str(item)`, which renders Python's capitalized `True`. -/
theorem C5_list_bool_not_lowercase :
    convert_filters [("a", FilterVal.list [PyScalar.bool true])] =
      "\x7b\"a\": [\"True\"]\x7d" ∧
    convert_filters_lists [("a", FilterVal.list [PyScalar.bool true])] =
      [("a", ["True"])] ∧
    convert_filters [("a", FilterVal.list [PyScalar.bool true])] ≠
      "\x7b\"a\": [\"true\"]\x7d" := by
  exact ⟨rfl, rfl, by decide⟩

/-- C5 as amended: a boolean appearing as a scalar value renders as the
lowercase `"true"`/`"false"`, while a boolean inside a list value is
rendered by Python's `str()` as `"True"`/`"False"`; every value ends up as
a list of strings with the original keys in order, and the whole mapping is
serialized as a single JSON object string mapping each key to its list of
strings. -/
theorem C5_filters_encoding (filters : List (String × FilterVal)) :
    convert_filters filters =
      jsonDumpsStrListObj (convert_filters_lists filters) ∧
    (convert_filters_lists filters).map Prod.fst =
      filters.map Prod.fst ∧
    (∀ k b, (k, FilterVal.scalar (PyScalar.bool b)) ∈ filters →
      (k, [if b then "true" else "false"]) ∈
        convert_filters_lists filters) ∧
    (∀ k n, (k, FilterVal.scalar (PyScalar.int n)) ∈ filters →
      (k, [toString n]) ∈ convert_filters_lists filters) ∧
    (∀ k s, (k, FilterVal.scalar (PyScalar.str s)) ∈ filters →
      (k, [s]) ∈ convert_filters_lists filters) ∧
    (∀ k vs, (k, FilterVal.list vs) ∈ filters →
      (k, vs.map pyStr) ∈ convert_filters_lists filters) ∧
    pyStr (PyScalar.bool true) = "True" ∧
    pyStr (PyScalar.bool false) = "False" := by
  refine ⟨rfl, ?_, ?_, ?_, ?_, ?_, rfl, rfl⟩
  · simp [convert_filters_lists]
  · intro k b h
    exact List.mem_map_of_mem
      (fun kv : String × FilterVal => (kv.1, convert_filters_value kv.2)) h
  · intro k n h
    exact List.mem_map_of_mem
      (fun kv : String × FilterVal => (kv.1, convert_filters_value kv.2)) h
  · intro k s h
    exact List.mem_map_of_mem
      (fun kv : String × FilterVal => (kv.1, convert_filters_value kv.2)) h
  · intro k vs h
    exact List.mem_map_of_mem
      (fun kv : String × FilterVal => (kv.1, convert_filters_value kv.2)) h

/-- C5 witness: the filter mapping `status=True, label=[True, "x"]`: the
scalar boolean renders lowercase, the boolean inside the list renders as
`"True"`, both values end as lists of strings. -/
theorem C5_filters_encoding_witness :
    ("status", ["true"]) ∈
      convert_filters_lists
        [("status", FilterVal.scalar (PyScalar.bool true)),
         ("label", FilterVal.list [PyScalar.bool true, PyScalar.str "x"])] ∧
    ("label", [PyScalar.bool true, PyScalar.str "x"].map pyStr) ∈
      convert_filters_lists
        [("status", FilterVal.scalar (PyScalar.bool true)),
         ("label", FilterVal.list [PyScalar.bool true, PyScalar.str "x"])] ∧
    [PyScalar.bool true, PyScalar.str "x"].map pyStr = ["True", "x"] := by
  have h := C5_filters_encoding
    [("status", FilterVal.scalar (PyScalar.bool true)),
     ("label", FilterVal.list [PyScalar.bool true, PyScalar.str "x"])]
  exact ⟨h.2.2.1 "status" true (by decide),
    h.2.2.2.2.2.1 "label" [PyScalar.bool true, PyScalar.str "x"]
      (by decide), rfl⟩

/-- C6: the non-sparse collection listing issues one inspect request per
summary entry and returns every inspected entity; an entry whose inspect
reports that the entity was removed is silently skipped when
`ignore_removed` is set, leaving exactly the remaining entities, and when
all inspects succeed the result holds one entity per entry. Modelled from
the spec for the missing `portainer/errors.py` and
`portainer/models/resource.py`. -/
theorem C6_list_inspects (inspect : String → InspectOutcome)
    (ids : List String) (ignoreRemoved : Bool)
    (hfail : ∀ id ∈ ids, inspect id ≠ InspectOutcome.failed) :
    (ignoreRemoved = true →
      (containerListLoop inspect ignoreRemoved ids).1 = ids.length ∧
      (containerListLoop inspect ignoreRemoved ids).2 =
        Except.ok (ids.filterMap fun id => foundAttrs (inspect id))) ∧
    ((∀ id ∈ ids, ∃ a, inspect id = InspectOutcome.found a) →
      (containerListLoop inspect ignoreRemoved ids).1 = ids.length ∧
      (containerListLoop inspect ignoreRemoved ids).2 =
        Except.ok (ids.filterMap fun id => foundAttrs (inspect id)) ∧
      (ids.filterMap fun id => foundAttrs (inspect id)).length =
        ids.length) := by
  induction ids with
  | nil => exact ⟨fun _ => ⟨rfl, rfl⟩, fun _ => ⟨rfl, rfl, rfl⟩⟩
  | cons id rest ih =>
    have hfid := hfail id (List.mem_cons_self id rest)
    have hfrest : ∀ i ∈ rest, inspect i ≠ InspectOutcome.failed :=
      fun i hi => hfail i (List.mem_cons_of_mem id hi)
    have ih' := ih hfrest
    constructor
    · intro hir
      subst hir
      obtain ⟨ihn, ihr⟩ := ih'.1 rfl
      cases hi : inspect id with
      | found a =>
        constructor
        · simp [containerListLoop, hi, ihn]
        · simp [containerListLoop, hi, ihr, List.filterMap_cons,
            foundAttrs, Except.map]
      | missing =>
        constructor
        · simp [containerListLoop, hi, ihn]
        · simp [containerListLoop, hi, ihr, List.filterMap_cons,
            foundAttrs]
      | failed => exact absurd hi hfid
    · intro hall
      have hallrest : ∀ i ∈ rest, ∃ a, inspect i = InspectOutcome.found a :=
        fun i hi => hall i (List.mem_cons_of_mem id hi)
      obtain ⟨ihn, ihr, ihl⟩ := ih'.2 hallrest
      obtain ⟨a, ha⟩ := hall id (List.mem_cons_self id rest)
      refine ⟨?_, ?_, ?_⟩
      · simp [containerListLoop, ha, ihn]
      · simp [containerListLoop, ha, ihr, List.filterMap_cons, foundAttrs,
          Except.map]
      · have hfa : foundAttrs (inspect id) = some a := by
          simp [ha, foundAttrs]
        rw [List.filterMap_cons]
        simp only [hfa]
        simp only [List.length_cons, ihl]

/-- C6 witness: the spec's scenario — the summary listing returns ids `c1`
and `c2`; with both inspects succeeding the result holds both entities;
with the inspect of `c2` reporting the entity removed and
`ignore_removed=true`, two inspects are still issued and the result holds
only the `c1` entity. -/
theorem C6_list_inspects_witness :
    (containerListLoop
        (fun id => if id = "c1" then InspectOutcome.found "e1"
          else InspectOutcome.missing) true ["c1", "c2"]).1 = 2 ∧
    (containerListLoop
        (fun id => if id = "c1" then InspectOutcome.found "e1"
          else InspectOutcome.missing) true ["c1", "c2"]).2 =
      Except.ok ["e1"] ∧
    (containerListLoop
        (fun id => if id = "c1" then InspectOutcome.found "e1"
          else InspectOutcome.found "e2") false ["c1", "c2"]).2 =
      Except.ok ["e1", "e2"] := by
  have h1 := (C6_list_inspects
    (fun id => if id = "c1" then InspectOutcome.found "e1"
      else InspectOutcome.missing) ["c1", "c2"] true
    (by intro i hi; fin_cases hi <;> decide)).1 rfl
  have h2 := (C6_list_inspects
    (fun id => if id = "c1" then InspectOutcome.found "e1"
      else InspectOutcome.found "e2") ["c1", "c2"] false
    (by intro i hi; fin_cases hi <;> decide)).2
    (by
      intro i hi
      fin_cases hi
      · exact ⟨"e1", by decide⟩
      · exact ⟨"e2", by decide⟩)
  refine ⟨h1.1, ?_, ?_⟩
  · rw [h1.2]
    rfl
  · rw [h2.2.1]
    rfl

/-- C10: construction always discards the supplied session argument,
creates a fresh session, and marks it for closing; `close` then always
closes that internally created session, and a caller-provided session is
never the one held for requests. -/
theorem C10_session_ownership (arg arg2 : Option Session) (n : Nat) :
    (initSession arg).session = some Session.fresh ∧
    (initSession arg).closeSession = true ∧
    initSession arg = initSession arg2 ∧
    closeClient (initSession arg) = some Session.fresh ∧
    (initSession (some (Session.supplied n))).session ≠
      some (Session.supplied n) := by
  refine ⟨rfl, rfl, rfl, rfl, by simp [initSession]⟩

end Portainer
